import Mathlib

/-!
Shallow embedding of the screen-time core of the repository
(`src/timer.cpp` / `src/session_manager.cpp`).

The C++ code is single-threaded; every method that reads the wall clock
(`time(&now)`) is modelled as a pure function taking `now : Nat` explicitly.
All on-device counters are `uint32_t`; additions and the `(uint32_t)` cast of a
`time_t` difference are modelled as Nat arithmetic reduced `% 2^32`.
Timestamps (`time_t`) are modelled as `Nat` (the device only ever handles
non-negative Unix times); the source's clamp of future timestamps makes the
subtraction `now - sessionStartTime` non-negative before the cast.
-/

namespace Screenie

/-- `2^32`, the modulus of the device's `uint32_t` arithmetic. -/
def U32 : Nat := 4294967296

/-- `TimerState` from `timer.h`: STOPPED / RUNNING / EXPIRED. -/
inductive TimerState where
  | Stopped
  | Running
  | Expired
deriving DecidableEq, Repr

/-- The `ScreenTimer` fields from `timer.h` (`_state`, `_totalAllowanceSeconds`,
`_consumedTodaySeconds`, `_sessionStartTime`). -/
structure ScreenTimer where
  state : TimerState
  totalAllowanceSeconds : Nat
  consumedTodaySeconds : Nat
  sessionStartTime : Nat
deriving DecidableEq, Repr

/-- `ScreenTimer::begin` (timer.cpp lines 26-42): installs allowance and
consumed totals, clears the session start, and derives the state. -/
def ScreenTimer.beginTimer (allowanceSeconds consumedSeconds : Nat) : ScreenTimer :=
  { state := if allowanceSeconds ≤ consumedSeconds then .Expired else .Stopped
    totalAllowanceSeconds := allowanceSeconds
    consumedTodaySeconds := consumedSeconds
    sessionStartTime := 0 }

/-- `ScreenTimer::reset` (timer.cpp lines 48-60): new-day reset; a zero
argument keeps the current allowance. -/
def ScreenTimer.reset (t : ScreenTimer) (allowanceSeconds : Nat) : ScreenTimer :=
  { state := .Stopped
    totalAllowanceSeconds :=
      if 0 < allowanceSeconds then allowanceSeconds else t.totalAllowanceSeconds
    consumedTodaySeconds := 0
    sessionStartTime := 0 }

/-- `ScreenTimer::calculateCurrentSessionSeconds` (timer.cpp lines 204-218):
elapsed seconds of the running session, guarded against a zero start and a
clock behind the session start; the `(uint32_t)` cast is the `% U32`. -/
def ScreenTimer.calculateCurrentSessionSeconds (t : ScreenTimer) (now : Nat) : Nat :=
  if t.state ≠ .Running ∨ t.sessionStartTime = 0 then 0
  else if now ≤ t.sessionStartTime then 0
  else (now - t.sessionStartTime) % U32

/-- `ScreenTimer::getTotalConsumedSeconds` (timer.cpp lines 261-263):
completed sessions plus the in-flight session, in `uint32_t` arithmetic. -/
def ScreenTimer.getTotalConsumedSeconds (t : ScreenTimer) (now : Nat) : Nat :=
  (t.consumedTodaySeconds + t.calculateCurrentSessionSeconds now) % U32

/-- `ScreenTimer::calculateRemainingSeconds` (timer.cpp lines 224-232):
allowance minus total consumed, clamped at zero. -/
def ScreenTimer.calculateRemainingSeconds (t : ScreenTimer) (now : Nat) : Nat :=
  if t.totalAllowanceSeconds ≤ t.getTotalConsumedSeconds now then 0
  else t.totalAllowanceSeconds - t.getTotalConsumedSeconds now

/-- `ScreenTimer::start` (timer.cpp lines 62-81): refuses (and flips to
Expired) when remaining is zero; otherwise records `now` as the session start
unless already running. Returns (new timer, success flag). -/
def ScreenTimer.start (t : ScreenTimer) (now : Nat) : ScreenTimer × Bool :=
  if t.calculateRemainingSeconds now = 0 then
    ({ t with state := .Expired }, false)
  else if t.state ≠ .Running then
    ({ t with state := .Running, sessionStartTime := now }, true)
  else (t, true)

/-- `ScreenTimer::startFromTimestamp` (timer.cpp lines 83-111): clamps a
future timestamp to `now`, then either resumes the session or expires when the
accumulated gap exhausts the allowance. -/
def ScreenTimer.startFromTimestamp (t : ScreenTimer) (now ts : Nat) : ScreenTimer × Bool :=
  let ts2 := if now < ts then now else ts
  let sessionElapsed := (now - ts2) % U32
  let totalConsumed := (t.consumedTodaySeconds + sessionElapsed) % U32
  if t.totalAllowanceSeconds ≤ totalConsumed then
    ({ t with
        state := .Expired
        consumedTodaySeconds := t.totalAllowanceSeconds
        sessionStartTime := 0 }, false)
  else
    ({ t with state := .Running, sessionStartTime := ts2 }, true)

/-- `ScreenTimer::stop` (timer.cpp lines 113-145): commits
`max(actual, minimumDuration)` to the consumed total (when a minimum is
requested) but returns the actual elapsed seconds. -/
def ScreenTimer.stop (t : ScreenTimer) (now minimumDuration : Nat) : ScreenTimer × Nat :=
  if t.state ≠ .Running then (t, 0)
  else
    let actualSeconds := t.calculateCurrentSessionSeconds now
    let effectiveSeconds :=
      if 0 < minimumDuration ∧ actualSeconds < minimumDuration
      then minimumDuration else actualSeconds
    ({ t with
        consumedTodaySeconds := (t.consumedTodaySeconds + effectiveSeconds) % U32
        sessionStartTime := 0
        state := .Stopped }, actualSeconds)

/-- `ScreenTimer::abortSession` (timer.cpp lines 147-158): drops the running
session without committing any time. -/
def ScreenTimer.abortSession (t : ScreenTimer) : ScreenTimer :=
  if t.state = .Running then { t with sessionStartTime := 0, state := .Stopped }
  else t

/-- `ScreenTimer::toggle` (timer.cpp lines 160-167). Returns (new timer,
"now running" flag). -/
def ScreenTimer.toggle (t : ScreenTimer) (now : Nat) : ScreenTimer × Bool :=
  if t.state = .Running then ((t.stop now 0).1, false)
  else t.start now

/-- `ScreenTimer::update` (timer.cpp lines 173-198): the periodic tick; the
only place a Running timer is transitioned to Expired. -/
def ScreenTimer.update (t : ScreenTimer) (now : Nat) : ScreenTimer :=
  if t.state ≠ .Running then t
  else if t.calculateRemainingSeconds now = 0 then
    { t with
        consumedTodaySeconds := t.totalAllowanceSeconds
        sessionStartTime := 0
        state := .Expired }
  else t

/-- `ScreenTimer::isRunning` (timer.cpp lines 247-249). -/
def ScreenTimer.isRunning (t : ScreenTimer) : Bool :=
  decide (t.state = .Running)

/-- `ScreenTimer::isExpired` (timer.cpp lines 251-255): a pure state
comparison; it reads no clock and recomputes nothing. -/
def ScreenTimer.isExpired (t : ScreenTimer) : Bool :=
  decide (t.state = .Expired)

/-- `ScreenTimer::getState` (timer.cpp lines 243-245). -/
def ScreenTimer.getState (t : ScreenTimer) : TimerState := t.state

/-- `ScreenTimer::getTotalAllowance` (timer.cpp lines 257-259). -/
def ScreenTimer.getTotalAllowance (t : ScreenTimer) : Nat := t.totalAllowanceSeconds

/-- `ScreenTimer::getCompletedSessionsSeconds` (timer.cpp lines 265-267):
the raw completed-sessions counter, excluding any in-flight session. -/
def ScreenTimer.getCompletedSessionsSeconds (t : ScreenTimer) : Nat :=
  t.consumedTodaySeconds

/-- `ScreenTimer::getSessionStartTime` (timer.cpp lines 273-275). -/
def ScreenTimer.getSessionStartTime (t : ScreenTimer) : Nat := t.sessionStartTime

/-- `ScreenTimer::setConsumedTodaySeconds` (timer.cpp lines 277-291). -/
def ScreenTimer.setConsumedTodaySeconds (t : ScreenTimer) (seconds : Nat) : ScreenTimer :=
  let t1 := { t with consumedTodaySeconds := seconds }
  if t1.totalAllowanceSeconds ≤ t1.consumedTodaySeconds then
    { t1 with state := .Expired, sessionStartTime := 0 }
  else if t1.state = .Expired then { t1 with state := .Stopped }
  else t1

/-- `ScreenTimer::setAllowance` (timer.cpp lines 295-314): a zero argument is
ignored; otherwise replaces the allowance and re-derives the state. -/
def ScreenTimer.setAllowance (t : ScreenTimer) (allowanceSeconds : Nat) : ScreenTimer :=
  if allowanceSeconds = 0 then t
  else
    let t1 := { t with totalAllowanceSeconds := allowanceSeconds }
    if t1.totalAllowanceSeconds ≤ t1.consumedTodaySeconds then
      { t1 with state := .Expired, sessionStartTime := 0 }
    else if t1.state = .Expired then { t1 with state := .Stopped }
    else t1

/-- `ScreenTimer::addAllowance` (timer.cpp lines 316-328): grows the allowance
(`uint32_t` addition) and un-expires when remaining becomes positive; the
remaining check reads the clock, hence the `now` argument. -/
def ScreenTimer.addAllowance (t : ScreenTimer) (now additionalSeconds : Nat) : ScreenTimer :=
  let t1 := { t with
      totalAllowanceSeconds := (t.totalAllowanceSeconds + additionalSeconds) % U32 }
  if t1.state = .Expired ∧ 0 < t1.calculateRemainingSeconds now then
    { t1 with state := .Stopped }
  else t1

/-- `SessionSnapshot` from `session_manager.h` (lines 33-47); `weekday = 0xFF`
means "unset". -/
structure SessionSnapshot where
  consumedTodaySeconds : Nat
  sessionStartTime : Nat
  timerState : TimerState
  weekday : Nat
  isValid : Bool
deriving DecidableEq, Repr

/-- `SessionManager::createSnapshot` (session_manager.cpp lines 116-134):
stores the completed-sessions total only, plus the raw session start, state
and the current weekday (`AppState::getCurrentWeekday`, passed explicitly). -/
def createSnapshot (t : ScreenTimer) (currentWeekday : Nat) : SessionSnapshot :=
  { consumedTodaySeconds := t.getCompletedSessionsSeconds
    sessionStartTime := t.getSessionStartTime
    timerState := t.getState
    weekday := currentWeekday
    isValid := true }

/-- `SessionManager::restoreFromSnapshot` (session_manager.cpp lines 136-169):
validity and day-change guards, then restore the consumed total and, for a
Running snapshot with a positive start, replay the session from its
timestamp. Returns (new timer, overall success flag). -/
def restoreFromSnapshot (t : ScreenTimer) (snapshot : SessionSnapshot)
    (currentWeekday now : Nat) : ScreenTimer × Bool :=
  if snapshot.isValid = false then (t, false)
  else if snapshot.weekday ≠ 255 ∧ snapshot.weekday ≠ currentWeekday then (t, false)
  else
    let t1 := t.setConsumedTodaySeconds snapshot.consumedTodaySeconds
    if snapshot.timerState = .Running ∧ 0 < snapshot.sessionStartTime then
      t1.startFromTimestamp now snapshot.sessionStartTime
    else (t1, true)

/-! ### Traces of timer operations

The conservation property (§8 item 1 of the spec) quantifies over sequences of
`start` / `update` / `stop(0)` calls; a trace is a list of such calls, each
carrying the wall-clock time at which it happens. -/

/-- One timer call of a conservation trace: `start()`, `update()` or
`stop(0)`, performed at wall-clock time `now`. -/
inductive TimerEv where
  | start (now : Nat)
  | update (now : Nat)
  | stop (now : Nat)
deriving DecidableEq, Repr

/-- Execute one trace event against the timer (the code of `start`, `update`,
`stop(0)` respectively; result flags are discarded as in the property). -/
def stepEv (t : ScreenTimer) : TimerEv → ScreenTimer
  | .start n => (t.start n).1
  | .update n => t.update n
  | .stop n => (t.stop n 0).1

/-- Run a whole trace left to right. -/
def runTrace (t : ScreenTimer) : List TimerEv → ScreenTimer
  | [] => t
  | e :: es => runTrace (stepEv t e) es

/-- The wall-clock time carried by an event. -/
def evTime : TimerEv → Nat
  | .start n => n
  | .update n => n
  | .stop n => n

/-- All event times are positive (Unix time 0 never occurs at runtime) and
representable in `uint32_t`. -/
def evTimesOK (es : List TimerEv) : Bool :=
  es.all fun e => decide (0 < evTime e ∧ evTime e < U32)

/-- Spec-side definition, following the spec's words (§8 property 1): the
wall-clock span of each session, a session being delimited by a `start` call
(opening it at the carried time, when none is open) and the next `stop` call
(closing it). The first argument is the start time of the currently open
session, if any. -/
def specSessionSpans : Option Nat → List TimerEv → List Nat
  | _, [] => []
  | none, .start n :: es => specSessionSpans (some n) es
  | none, .update _ :: es => specSessionSpans none es
  | none, .stop _ :: es => specSessionSpans none es
  | some s, .start _ :: es => specSessionSpans (some s) es
  | some s, .update _ :: es => specSessionSpans (some s) es
  | some s, .stop n :: es => (n - s) :: specSessionSpans none es

/-- The open-session tracker corresponding to a timer state. -/
def trackerOf (t : ScreenTimer) : Option Nat :=
  if t.state = .Running then some t.sessionStartTime else none

/-- The allowance is never exhausted during the trace: every `start` call, and
every `update` call made while running, observes a positive remaining time. -/
def noExpiryB (t : ScreenTimer) : List TimerEv → Bool
  | [] => true
  | e :: es =>
    (match e with
     | .start n => decide (0 < t.calculateRemainingSeconds n)
     | .update n => decide (t.state ≠ .Running ∨ 0 < t.calculateRemainingSeconds n)
     | .stop _ => true)
    && noExpiryB (stepEv t e) es

/-- The invariant of spec §3: the timer is Running exactly when a session
start timestamp is recorded. -/
def TimerInv (t : ScreenTimer) : Prop :=
  t.state = .Running ↔ t.sessionStartTime ≠ 0

instance (t : ScreenTimer) : Decidable (TimerInv t) := by
  unfold TimerInv; infer_instance

/-! ### Concrete sample values used by counterexamples and witnesses -/

/-- A running timer with allowance 3600 s, 100 s already consumed by completed
sessions, and a session begun at Unix time 1000. -/
def tRunning : ScreenTimer := ⟨.Running, 3600, 100, 1000⟩

/-- A freshly booted timer with allowance 3600 s and nothing consumed. -/
def tFresh : ScreenTimer := ⟨.Stopped, 3600, 0, 0⟩

/-- A small timer: allowance 10 s, nothing consumed, not running. -/
def tSmall : ScreenTimer := ⟨.Stopped, 10, 0, 0⟩

/-- A running timer whose session has already outlived its 10 s allowance. -/
def tOverran : ScreenTimer := ⟨.Running, 10, 0, 5⟩

/-- A valid Running snapshot taken on weekday 2 with session start 5. -/
def snapStale : SessionSnapshot := ⟨0, 5, .Running, 2, true⟩

/-- A valid Running snapshot taken on weekday 3 with a recent timestamp. -/
def snapOtherDay : SessionSnapshot := ⟨100, 50, .Running, 3, true⟩

/-- The concrete one-hour scenario of spec §8 item 8: allowance 3600 s,
session started at Unix time 1000 (the scenario's `t=0`). -/
def tHour : ScreenTimer := ((ScreenTimer.beginTimer 3600 0).start 1000).1

/-- The trace of the conservation counterexample: one session started at time
1 and ended by the expiry-detecting `update` tick at time 100. -/
def cexTrace : List TimerEv := [.start 1, .update 100]

/-- A two-session trace: sessions 10→15 and 20→30 (spans 5 and 10). -/
def okTrace : List TimerEv := [.start 10, .update 12, .stop 15, .start 20, .stop 30]

/-! ### Helper lemmas -/

/-- A timer that is not Running reports a zero current-session time. -/
theorem calcCurrent_not_running (t : ScreenTimer) (now : Nat)
    (h : t.state ≠ .Running) : t.calculateCurrentSessionSeconds now = 0 := by
  unfold ScreenTimer.calculateCurrentSessionSeconds
  rw [if_pos (Or.inl h)]

/-- For a non-running timer with a representable consumed total, remaining is
the clamped difference of allowance and consumed. -/
theorem remaining_not_running (t : ScreenTimer) (now : Nat)
    (h : t.state ≠ .Running) (hc : t.consumedTodaySeconds < U32) :
    t.calculateRemainingSeconds now
      = t.totalAllowanceSeconds - t.consumedTodaySeconds := by
  unfold ScreenTimer.calculateRemainingSeconds ScreenTimer.getTotalConsumedSeconds
  rw [calcCurrent_not_running t now h, Nat.add_zero, Nat.mod_eq_of_lt hc]
  split
  · omega
  · rfl

/-- `setConsumedTodaySeconds` installs exactly the given consumed total and
never touches the allowance. -/
theorem setConsumed_fields (t : ScreenTimer) (s : Nat) :
    (t.setConsumedTodaySeconds s).consumedTodaySeconds = s ∧
    (t.setConsumedTodaySeconds s).totalAllowanceSeconds = t.totalAllowanceSeconds := by
  simp only [ScreenTimer.setConsumedTodaySeconds]
  refine ⟨?_, ?_⟩
  all_goals
    split
    · rfl
    · split <;> rfl

/-! ### Claim theorems -/

/-- C7: a snapshot whose weekday is set (≠ 0xFF) and differs from the current
weekday is rejected by `restoreFromSnapshot` — it returns false and leaves the
timer untouched — regardless of the snapshot's other contents. -/
theorem restore_rejects_day_change (t : ScreenTimer) (snap : SessionSnapshot)
    (wd now : Nat) (h1 : snap.weekday ≠ 255) (h2 : snap.weekday ≠ wd) :
    restoreFromSnapshot t snap wd now = (t, false) := by
  unfold restoreFromSnapshot
  split
  · rfl
  · rw [if_pos ⟨h1, h2⟩]

/-- C7 witness: a Running snapshot with a plausible recent timestamp, taken on
weekday 3, is rejected when restored on weekday 4. -/
theorem restore_rejects_day_change_witness :
    restoreFromSnapshot tFresh snapOtherDay 4 60 = (tFresh, false) :=
  restore_rejects_day_change tFresh snapOtherDay 4 60 (by decide) (by decide)

/-- C4: stopping a Running timer with a minimum duration `M` larger than the
actual elapsed time commits exactly `M` seconds to the consumed total but
returns the actual (uncapped) elapsed time. -/
theorem stop_minimum_clamp (t : ScreenTimer) (now M : Nat)
    (ht : t.state = .Running) (hM : 0 < M)
    (he : t.calculateCurrentSessionSeconds now < M)
    (hb : t.consumedTodaySeconds + M < U32) :
    (t.stop now M).1.consumedTodaySeconds = t.consumedTodaySeconds + M ∧
    (t.stop now M).2 = t.calculateCurrentSessionSeconds now := by
  unfold ScreenTimer.stop
  rw [if_neg (by simp [ht])]
  simp only
  rw [if_pos ⟨hM, he⟩]
  exact ⟨Nat.mod_eq_of_lt hb, trivial⟩

/-- C4 witness: elapsed 10 s, minimum 60 s: consumed grows by 60 but the
returned duration is 10. -/
theorem stop_minimum_clamp_witness :
    (tRunning.stop 1010 60).1.consumedTodaySeconds = 100 + 60 ∧
    (tRunning.stop 1010 60).2 = tRunning.calculateCurrentSessionSeconds 1010 :=
  stop_minimum_clamp tRunning 1010 60 rfl (by decide) (by decide) (by decide)

/-- C8: `isExpired` is a pure state read: it returns true exactly when the
state is Expired (it takes no clock input and changes no field in the
embedding, mirroring the `const` method), and on a Running timer whose
remaining time has reached zero it still returns false until `update`
performs the Running → Expired transition. -/
theorem isExpired_pure_state_read :
    (∀ t : ScreenTimer, t.isExpired = true ↔ t.state = .Expired) ∧
    (∀ (t : ScreenTimer) (now : Nat), t.state = .Running →
      t.calculateRemainingSeconds now = 0 →
      t.isExpired = false ∧ (t.update now).state = .Expired) := by
  constructor
  · intro t
    simp [ScreenTimer.isExpired]
  · intro t now ht hr
    refine ⟨by simp [ScreenTimer.isExpired, ht], ?_⟩
    unfold ScreenTimer.update
    rw [if_neg (by simp [ht]), if_pos hr]

/-- C8 witness: a Running timer past its allowance still reads not-expired,
and the next `update` tick transitions it to Expired. -/
theorem isExpired_pure_state_read_witness :
    tOverran.isExpired = false ∧ (tOverran.update 100).state = .Expired :=
  isExpired_pure_state_read.2 tOverran 100 rfl (by decide)

/-- C10: session-elapsed arithmetic cannot underflow: a start timestamp in
the future is clamped to `now` (the call behaves exactly as if the session
started now, elapsed 0), and the current-session computation returns 0
whenever the timer is not Running or the clock is not past the session start,
so the subtraction `now - sessionStartTime` only happens when non-negative. -/
theorem no_unsigned_underflow :
    (∀ (t : ScreenTimer) (now ts : Nat), now < ts →
        t.startFromTimestamp now ts = t.startFromTimestamp now now) ∧
    (∀ (t : ScreenTimer) (now : Nat),
        t.state ≠ .Running ∨ now ≤ t.sessionStartTime →
        t.calculateCurrentSessionSeconds now = 0) := by
  constructor
  · intro t now ts h
    unfold ScreenTimer.startFromTimestamp
    rw [if_pos h, if_neg (lt_irrefl now)]
  · intro t now h
    unfold ScreenTimer.calculateCurrentSessionSeconds
    rcases h with h | h
    · rw [if_pos (Or.inl h)]
    · split
      all_goals rfl

/-- C10 witness: a timestamp 30 s in the future resumes as "started now", and
a clock reading before the session start yields elapsed 0. -/
theorem no_unsigned_underflow_witness :
    tSmall.startFromTimestamp 50 80 = tSmall.startFromTimestamp 50 50 ∧
    tRunning.calculateCurrentSessionSeconds 900 = 0 :=
  ⟨no_unsigned_underflow.1 tSmall 50 80 (by decide),
   no_unsigned_underflow.2 tRunning 900 (Or.inr (by decide))⟩

/-- C9: a minimum-duration commit that pushes consumed strictly past the
allowance leaves the timer Stopped (not Expired): remaining reads 0 while
`isExpired` stays false, `update` ignores the non-Running state, and a later
`start` returns false while flipping the state to Expired. -/
theorem stop_overshoot_stopped_not_expired (t : ScreenTimer) (now M : Nat)
    (ht : t.state = .Running) (hM : 0 < M)
    (he : t.calculateCurrentSessionSeconds now < M)
    (hover : t.totalAllowanceSeconds < t.consumedTodaySeconds + M)
    (hb : t.consumedTodaySeconds + M < U32) :
    (t.stop now M).1.state = .Stopped ∧
    (t.stop now M).1.isExpired = false ∧
    (∀ m, (t.stop now M).1.calculateRemainingSeconds m = 0) ∧
    (∀ m, (t.stop now M).1.update m = (t.stop now M).1) ∧
    (∀ m, ((t.stop now M).1.start m).2 = false ∧
          ((t.stop now M).1.start m).1.state = .Expired) := by
  have hstop : (t.stop now M).1 =
      { t with consumedTodaySeconds := t.consumedTodaySeconds + M,
               sessionStartTime := 0, state := .Stopped } := by
    unfold ScreenTimer.stop
    rw [if_neg (by simp [ht])]
    simp only
    rw [if_pos ⟨hM, he⟩, Nat.mod_eq_of_lt hb]
  rw [hstop]
  have hrem : ∀ m : Nat,
      ScreenTimer.calculateRemainingSeconds
        { t with consumedTodaySeconds := t.consumedTodaySeconds + M,
                 sessionStartTime := 0, state := .Stopped } m = 0 := by
    intro m
    rw [remaining_not_running _ m (by simp) hb]
    show t.totalAllowanceSeconds - (t.consumedTodaySeconds + M) = 0
    omega
  refine ⟨rfl, by simp [ScreenTimer.isExpired], hrem, ?_, ?_⟩
  · intro m
    unfold ScreenTimer.update
    rw [if_pos (by simp)]
  · intro m
    unfold ScreenTimer.start
    rw [if_pos (hrem m)]
    exact ⟨rfl, rfl⟩

/-- C9 witness: elapsed 10 s, minimum 3600 s on a timer with 100 s consumed of
a 3600 s allowance: consumed becomes 3700 > 3600 yet the state is Stopped and
a later start is refused. -/
theorem stop_overshoot_stopped_not_expired_witness :
    (tRunning.stop 1010 3600).1.state = .Stopped ∧
    ((tRunning.stop 1010 3600).1.start 2000).2 = false :=
  ⟨(stop_overshoot_stopped_not_expired tRunning 1010 3600 rfl (by decide)
      (by decide) (by decide) (by decide)).1,
   ((stop_overshoot_stopped_not_expired tRunning 1010 3600 rfl (by decide)
      (by decide) (by decide) (by decide)).2.2.2.2 2000).1⟩

/-- C5: an `update` tick on a Running timer whose remaining time is 0
transitions to Expired with consumed = allowance and session start cleared,
and any subsequent `start` is refused; concretely (allowance 3600 s, session
begun at time 1000): at tick 4599 (t=3599) remaining is 1 and the state stays
Running, at tick 4600 (t=3600) the transition happens and `start` is refused. -/
theorem update_expiry_transition :
    (∀ (t : ScreenTimer) (now : Nat), t.state = .Running →
      t.totalAllowanceSeconds < U32 →
      t.calculateRemainingSeconds now = 0 →
      (t.update now).state = .Expired ∧
      (t.update now).consumedTodaySeconds = t.totalAllowanceSeconds ∧
      (t.update now).sessionStartTime = 0 ∧
      ∀ m, ((t.update now).start m).2 = false ∧
           ((t.update now).start m).1.state = .Expired) ∧
    (tHour.calculateRemainingSeconds 4599 = 1 ∧
     (tHour.update 4599).state = .Running ∧
     (tHour.update 4600).state = .Expired ∧
     (tHour.update 4600).consumedTodaySeconds = 3600 ∧
     (tHour.update 4600).sessionStartTime = 0 ∧
     (tHour.update 4600).calculateRemainingSeconds 4600 = 0 ∧
     ((tHour.update 4600).start 4600).2 = false) := by
  constructor
  · intro t now ht hA hr
    have hup : t.update now =
        { t with consumedTodaySeconds := t.totalAllowanceSeconds,
                 sessionStartTime := 0, state := .Expired } := by
      unfold ScreenTimer.update
      rw [if_neg (by simp [ht]), if_pos hr]
    rw [hup]
    have hrem : ∀ m : Nat, ScreenTimer.calculateRemainingSeconds
        { t with consumedTodaySeconds := t.totalAllowanceSeconds,
                 sessionStartTime := 0, state := .Expired } m = 0 := by
      intro m
      rw [remaining_not_running _ m (by simp) hA]
      show t.totalAllowanceSeconds - t.totalAllowanceSeconds = 0
      omega
    refine ⟨rfl, rfl, rfl, ?_⟩
    intro m
    unfold ScreenTimer.start
    rw [if_pos (hrem m)]
    exact ⟨rfl, rfl⟩
  · decide

/-- C5 witness: a running timer 3700 s past its start with allowance 3600 s
is expired by the next `update` tick. -/
theorem update_expiry_transition_witness :
    (tRunning.update 4700).state = .Expired ∧
    (tRunning.update 4700).consumedTodaySeconds = 3600 :=
  let h := update_expiry_transition.1 tRunning 4700 rfl (by decide) (by decide)
  ⟨h.1, h.2.1⟩

/-- C2 counterexample: restoring a same-weekday Running snapshot whose
suspension gap has exhausted the allowance leaves the timer Expired with
consumed = allowance, but `restoreFromSnapshot` reports overall restoration
as FAILED — it returns false (session_manager.cpp line 159), contradicting
the claim that restoration is still reported as successful. -/
theorem restore_expired_reports_failure_cex :
    (restoreFromSnapshot tSmall snapStale 2 100).2 = false ∧
    (restoreFromSnapshot tSmall snapStale 2 100).1.state = .Expired ∧
    (restoreFromSnapshot tSmall snapStale 2 100).1.consumedTodaySeconds = 10 := by
  decide

/-- C2 (amended): for a valid same-weekday Running snapshot with a positive
start timestamp whose suspension gap exhausts the allowance, restoration
leaves the timer Expired with consumed = allowance and remaining 0 (never
negative or overflowed), and returns false — the session is no longer
running and overall restoration is reported as failed. -/
theorem restore_expired_during_suspension
    (u : ScreenTimer) (snap : SessionSnapshot) (wd now : Nat)
    (hv : snap.isValid = true)
    (hw : snap.weekday = wd)
    (hrun : snap.timerState = .Running)
    (hst : 0 < snap.sessionStartTime)
    (hle : snap.sessionStartTime ≤ now)
    (hexp : u.totalAllowanceSeconds
      ≤ snap.consumedTodaySeconds + (now - snap.sessionStartTime))
    (hb : snap.consumedTodaySeconds + (now - snap.sessionStartTime) < U32) :
    (restoreFromSnapshot u snap wd now).1.state = .Expired ∧
    (restoreFromSnapshot u snap wd now).1.consumedTodaySeconds
      = u.totalAllowanceSeconds ∧
    (restoreFromSnapshot u snap wd now).2 = false ∧
    ∀ m, (restoreFromSnapshot u snap wd now).1.calculateRemainingSeconds m = 0 := by
  have hgap : (now - snap.sessionStartTime) % U32 = now - snap.sessionStartTime :=
    Nat.mod_eq_of_lt (lt_of_le_of_lt (Nat.le_add_left _ _) hb)
  have hc1 : (u.setConsumedTodaySeconds snap.consumedTodaySeconds).consumedTodaySeconds
      = snap.consumedTodaySeconds := (setConsumed_fields u _).1
  have ha1 : (u.setConsumedTodaySeconds snap.consumedTodaySeconds).totalAllowanceSeconds
      = u.totalAllowanceSeconds := (setConsumed_fields u _).2
  have hres : restoreFromSnapshot u snap wd now =
      ({ u.setConsumedTodaySeconds snap.consumedTodaySeconds with
          state := .Expired
          consumedTodaySeconds :=
            (u.setConsumedTodaySeconds snap.consumedTodaySeconds).totalAllowanceSeconds
          sessionStartTime := 0 }, false) := by
    unfold restoreFromSnapshot
    rw [if_neg (by simp [hv]), if_neg (fun h => h.2 hw), if_pos ⟨hrun, hst⟩]
    simp only [ScreenTimer.startFromTimestamp]
    rw [if_neg (not_lt.mpr hle), hgap, hc1, Nat.mod_eq_of_lt hb,
      if_pos (ha1 ▸ hexp)]
  rw [hres]
  have hAlt : u.totalAllowanceSeconds < U32 := lt_of_le_of_lt hexp hb
  refine ⟨rfl, ha1, rfl, ?_⟩
  intro m
  rw [remaining_not_running _ m (by simp) (by rw [ha1]; exact hAlt)]
  show (u.setConsumedTodaySeconds snap.consumedTodaySeconds).totalAllowanceSeconds
      - (u.setConsumedTodaySeconds snap.consumedTodaySeconds).totalAllowanceSeconds = 0
  omega

/-- C2 witness: allowance 10 s, snapshot start 5, restored at time 100 on the
matching weekday: the timer ends Expired with the full allowance consumed and
restoration returns false. -/
theorem restore_expired_during_suspension_witness :
    (restoreFromSnapshot tSmall snapStale 2 100).1.consumedTodaySeconds = 10 ∧
    (restoreFromSnapshot tSmall snapStale 2 100).1.calculateRemainingSeconds 200 = 0 :=
  let h := restore_expired_during_suspension tSmall snapStale 2 100 rfl rfl rfl
    (by decide) (by decide) (by decide) (by decide)
  ⟨h.2.1, h.2.2.2 200⟩

/-- C6 counterexample: the invariant `state = Running ↔ sessionStartTime ≠ 0`
is NOT preserved by every operation: `start()` called on a Running timer
whose remaining time has reached 0 (timer.cpp lines 64-69) flips the state to
Expired without clearing `_sessionStartTime`, leaving a non-Running timer
with a nonzero session start. -/
theorem running_iff_session_start_cex :
    TimerInv tOverran ∧ ¬ TimerInv (tOverran.start 100).1 := by
  decide

/-- C6 (amended): every public operation preserves the invariant
`state = Running ↔ sessionStartTime ≠ 0`, provided the clock and restore
timestamps are positive (Unix time 0 never occurs at runtime) and `start` is
not invoked on a Running timer whose remaining time is already 0 — the one
degenerate call that breaks it (see the counterexample). -/
theorem timer_ops_preserve_invariant :
    (∀ a c, TimerInv (ScreenTimer.beginTimer a c)) ∧
    (∀ (t : ScreenTimer) (a : Nat), TimerInv (t.reset a)) ∧
    (∀ (t : ScreenTimer) (now : Nat), TimerInv t → 0 < now →
      ¬ (t.state = .Running ∧ t.calculateRemainingSeconds now = 0) →
      TimerInv (t.start now).1) ∧
    (∀ (t : ScreenTimer) (now ts : Nat), 0 < now → 0 < ts →
      TimerInv (t.startFromTimestamp now ts).1) ∧
    (∀ (t : ScreenTimer) (now M : Nat), TimerInv t → TimerInv (t.stop now M).1) ∧
    (∀ t : ScreenTimer, TimerInv t → TimerInv t.abortSession) ∧
    (∀ (t : ScreenTimer) (now : Nat), TimerInv t → 0 < now →
      TimerInv (t.toggle now).1) ∧
    (∀ (t : ScreenTimer) (now : Nat), TimerInv t → TimerInv (t.update now)) ∧
    (∀ (t : ScreenTimer) (s : Nat), TimerInv t →
      TimerInv (t.setConsumedTodaySeconds s)) ∧
    (∀ (t : ScreenTimer) (a : Nat), TimerInv t → TimerInv (t.setAllowance a)) ∧
    (∀ (t : ScreenTimer) (now a : Nat), TimerInv t →
      TimerInv (t.addAllowance now a)) := by
  refine ⟨?_, ?_, ?_, ?_, ?_, ?_, ?_, ?_, ?_, ?_, ?_⟩
  · intro a c
    unfold TimerInv ScreenTimer.beginTimer
    split <;> simp
  · intro t a
    unfold TimerInv ScreenTimer.reset
    simp
  · intro t now hinv hnow hdeg
    unfold TimerInv ScreenTimer.start at *
    split
    · rename_i hr
      have hnr : t.state ≠ .Running := fun h => hdeg ⟨h, hr⟩
      have hz : t.sessionStartTime = 0 := by
        by_contra h
        exact hnr (hinv.mpr h)
      simp [hz]
    · split
      · simp
        omega
      · exact hinv
  · intro t now ts hnow hts
    simp only [TimerInv, ScreenTimer.startFromTimestamp]
    split_ifs <;> simp_all <;> omega
  · intro t now M hinv
    unfold TimerInv ScreenTimer.stop at *
    split
    · exact hinv
    · simp
  · intro t hinv
    unfold TimerInv ScreenTimer.abortSession at *
    split
    · simp
    · exact hinv
  · intro t now hinv hnow
    unfold TimerInv ScreenTimer.toggle at *
    split
    · rename_i hr
      unfold ScreenTimer.stop
      rw [if_neg (by simp [hr])]
      simp
    · rename_i hr
      have hz : t.sessionStartTime = 0 := by
        by_contra h
        exact hr (hinv.mpr h)
      unfold ScreenTimer.start
      split_ifs <;> simp_all
      omega
  · intro t now hinv
    unfold TimerInv ScreenTimer.update at *
    split
    · exact hinv
    · split
      · simp
      · exact hinv
  · intro t s hinv
    simp only [TimerInv, ScreenTimer.setConsumedTodaySeconds] at *
    split_ifs <;> simp_all
  · intro t a hinv
    simp only [TimerInv, ScreenTimer.setAllowance] at *
    split_ifs <;> simp_all
  · intro t now a hinv
    simp only [TimerInv, ScreenTimer.addAllowance] at *
    split_ifs <;> simp_all

/-- C6 witness: a fresh Stopped timer satisfies the invariant and still does
after a positive-time `start`. -/
theorem timer_ops_preserve_invariant_witness :
    TimerInv (tFresh.start 7).1 :=
  timer_ops_preserve_invariant.2.2.1 tFresh 7 (by decide) (by decide) (by decide)

/-- C1: a snapshot taken while a session is Running stores only the
completed-sessions total (excluding the in-flight elapsed time) and the
original start timestamp; restoring it on the same weekday at time
`sessionStartTime + e1` (so the in-flight time was `e1` at snapshot/restore)
and stopping at `sessionStartTime + e1 + e2` commits exactly the true
wall-clock span `e1 + e2` of the session — the pre-snapshot elapsed time `e1`
is never double-counted. -/
theorem snapshot_restore_no_double_count
    (t u : ScreenTimer) (w e1 e2 : Nat)
    (ht : t.state = .Running)
    (hs0 : 0 < t.sessionStartTime)
    (hru : t.consumedTodaySeconds + e1 < u.totalAllowanceSeconds)
    (hb : t.consumedTodaySeconds + (e1 + e2) < U32)
    (hb2 : e1 + e2 < U32) :
    (createSnapshot t w).consumedTodaySeconds = t.consumedTodaySeconds ∧
    (createSnapshot t w).sessionStartTime = t.sessionStartTime ∧
    (restoreFromSnapshot u (createSnapshot t w) w (t.sessionStartTime + e1)).2
      = true ∧
    ((restoreFromSnapshot u (createSnapshot t w) w (t.sessionStartTime + e1)).1.stop
        (t.sessionStartTime + e1 + e2) 0).1.consumedTodaySeconds
      = t.consumedTodaySeconds + (e1 + e2) ∧
    ((restoreFromSnapshot u (createSnapshot t w) w (t.sessionStartTime + e1)).1.stop
        (t.sessionStartTime + e1 + e2) 0).2 = e1 + e2 := by
  have hc1 : (u.setConsumedTodaySeconds t.consumedTodaySeconds).consumedTodaySeconds
      = t.consumedTodaySeconds := (setConsumed_fields u _).1
  have ha1 : (u.setConsumedTodaySeconds t.consumedTodaySeconds).totalAllowanceSeconds
      = u.totalAllowanceSeconds := (setConsumed_fields u _).2
  have he1 : e1 < U32 := by omega
  have hce1 : t.consumedTodaySeconds + e1 < U32 := by omega
  have hres : restoreFromSnapshot u (createSnapshot t w) w (t.sessionStartTime + e1)
      = ((⟨.Running, u.totalAllowanceSeconds, t.consumedTodaySeconds,
          t.sessionStartTime⟩ : ScreenTimer), true) := by
    unfold restoreFromSnapshot createSnapshot ScreenTimer.getState
      ScreenTimer.getSessionStartTime ScreenTimer.getCompletedSessionsSeconds
    rw [if_neg (by simp), if_neg (fun h => h.2 rfl), if_pos ⟨ht, hs0⟩]
    simp only [ScreenTimer.startFromTimestamp]
    have hclamp : (if t.sessionStartTime + e1 < t.sessionStartTime
        then t.sessionStartTime + e1 else t.sessionStartTime) = t.sessionStartTime :=
      if_neg (by omega)
    rw [hclamp, Nat.add_sub_cancel_left, Nat.mod_eq_of_lt he1, hc1,
      Nat.mod_eq_of_lt hce1, if_neg (by rw [ha1]; omega), ha1]
  have hact : ScreenTimer.calculateCurrentSessionSeconds
      ⟨.Running, u.totalAllowanceSeconds, t.consumedTodaySeconds, t.sessionStartTime⟩
      (t.sessionStartTime + e1 + e2) = e1 + e2 := by
    unfold ScreenTimer.calculateCurrentSessionSeconds
    rw [if_neg (by simp; omega)]
    rcases Nat.eq_zero_or_pos (e1 + e2) with h0 | hpos
    · rw [if_pos (by simp; omega)]
      omega
    · rw [if_neg (by simp; omega)]
      show (t.sessionStartTime + e1 + e2 - t.sessionStartTime) % U32 = e1 + e2
      have harith : t.sessionStartTime + e1 + e2 - t.sessionStartTime = e1 + e2 := by
        omega
      rw [harith, Nat.mod_eq_of_lt hb2]
  refine ⟨rfl, rfl, by rw [hres], ?_, ?_⟩
  · rw [hres]
    simp [ScreenTimer.stop, hact]
    exact Nat.mod_eq_of_lt hb
  · rw [hres]
    simp [ScreenTimer.stop, hact]

/-- C1 witness: 100 s already consumed, session start 1000, snapshot with
in-flight 50 s, restored at 1050 and stopped at 1120: consumed becomes
100 + (50 + 70) = 220 and the returned duration is the span 120. -/
theorem snapshot_restore_no_double_count_witness :
    ((restoreFromSnapshot tFresh (createSnapshot tRunning 2) 2 1050).1.stop
        1120 0).1.consumedTodaySeconds = 220 ∧
    ((restoreFromSnapshot tFresh (createSnapshot tRunning 2) 2 1050).1.stop
        1120 0).2 = 120 :=
  let h := snapshot_restore_no_double_count tRunning tFresh 2 50 70 rfl (by decide)
    (by decide) (by decide) (by decide)
  ⟨h.2.2.2.1, h.2.2.2.2⟩

/-- No trace event ever changes the allowance. -/
theorem runTrace_allowance (es : List TimerEv) : ∀ t : ScreenTimer,
    (runTrace t es).totalAllowanceSeconds = t.totalAllowanceSeconds := by
  induction es with
  | nil => intro t; rfl
  | cons e es ih =>
    intro t
    rw [runTrace, ih]
    cases e with
    | start n =>
      show ((t.start n).1).totalAllowanceSeconds = t.totalAllowanceSeconds
      unfold ScreenTimer.start
      split
      · rfl
      · split <;> rfl
    | update n =>
      show (t.update n).totalAllowanceSeconds = t.totalAllowanceSeconds
      unfold ScreenTimer.update
      split
      · rfl
      · split <;> rfl
    | stop n =>
      show ((t.stop n 0).1).totalAllowanceSeconds = t.totalAllowanceSeconds
      unfold ScreenTimer.stop
      split <;> rfl

/-- Conservation induction: under the no-expiry side conditions, running a
trace adds to the consumed total exactly the sum of the spec-side session
spans, starting from the open-session tracker matching the timer. -/
theorem runTrace_consumed (es : List TimerEv) : ∀ t : ScreenTimer,
    t.state ≠ .Expired →
    (t.state = .Running → 0 < t.sessionStartTime) →
    noExpiryB t es = true →
    evTimesOK es = true →
    t.consumedTodaySeconds + (specSessionSpans (trackerOf t) es).sum < U32 →
    (runTrace t es).consumedTodaySeconds
      = t.consumedTodaySeconds + (specSessionSpans (trackerOf t) es).sum := by
  induction es with
  | nil =>
    intro t _ _ _ _ _
    simp [runTrace, specSessionSpans]
  | cons e es ih =>
    intro t hne hrs hnx hok hsum
    rw [runTrace]
    cases e with
    | start n =>
      simp only [noExpiryB, Bool.and_eq_true, decide_eq_true_eq] at hnx
      obtain ⟨hx, hxs⟩ := hnx
      simp only [evTimesOK, List.all_cons, Bool.and_eq_true, decide_eq_true_eq,
        evTime] at hok
      obtain ⟨hok1, hoks⟩ := hok
      have hrem : ¬ t.calculateRemainingSeconds n = 0 := by omega
      cases hstate : t.state with
      | Expired => exact absurd hstate hne
      | Stopped =>
        have hstep : stepEv t (.start n) =
            { t with state := .Running, sessionStartTime := n } := by
          show (t.start n).1 = _
          unfold ScreenTimer.start
          rw [if_neg hrem, if_pos (by rw [hstate]; simp)]
        have htr : trackerOf t = none := by
          unfold trackerOf
          rw [if_neg (by rw [hstate]; simp)]
        have htr2 : trackerOf { t with state := .Running, sessionStartTime := n }
            = some n := by
          unfold trackerOf
          rw [if_pos rfl]
        rw [hstep] at hxs ⊢
        rw [htr] at hsum ⊢
        rw [ih _ (by simp) (fun _ => hok1.1) hxs hoks (by rw [htr2]; exact hsum)]
        rw [htr2]
        rfl
      | Running =>
        have hstep : stepEv t (.start n) = t := by
          show (t.start n).1 = _
          unfold ScreenTimer.start
          rw [if_neg hrem, if_neg (by rw [hstate]; simp)]
        have htr : trackerOf t = some t.sessionStartTime := by
          unfold trackerOf
          rw [if_pos hstate]
        rw [hstep] at hxs ⊢
        rw [htr] at hsum ⊢
        rw [ih t hne hrs hxs hoks (by rw [htr]; exact hsum), htr]
        rfl
    | update n =>
      simp only [noExpiryB, Bool.and_eq_true, decide_eq_true_eq] at hnx
      obtain ⟨hx, hxs⟩ := hnx
      simp only [evTimesOK, List.all_cons, Bool.and_eq_true, decide_eq_true_eq,
        evTime] at hok
      obtain ⟨hok1, hoks⟩ := hok
      cases hstate : t.state with
      | Expired => exact absurd hstate hne
      | Stopped =>
        have hstep : stepEv t (.update n) = t := by
          show t.update n = _
          unfold ScreenTimer.update
          rw [if_pos (by rw [hstate]; simp)]
        have htr : trackerOf t = none := by
          unfold trackerOf
          rw [if_neg (by rw [hstate]; simp)]
        rw [hstep] at hxs ⊢
        rw [htr] at hsum ⊢
        rw [ih t hne hrs hxs hoks (by rw [htr]; exact hsum), htr]
        rfl
      | Running =>
        have hrem : ¬ t.calculateRemainingSeconds n = 0 := by
          rcases hx with hx | hx
          · exact absurd hstate hx
          · omega
        have hstep : stepEv t (.update n) = t := by
          show t.update n = _
          unfold ScreenTimer.update
          rw [if_neg (by rw [hstate]; simp), if_neg hrem]
        have htr : trackerOf t = some t.sessionStartTime := by
          unfold trackerOf
          rw [if_pos hstate]
        rw [hstep] at hxs ⊢
        rw [htr] at hsum ⊢
        rw [ih t hne hrs hxs hoks (by rw [htr]; exact hsum), htr]
        rfl
    | stop n =>
      simp only [noExpiryB, Bool.true_and] at hnx
      have hxs : noExpiryB (stepEv t (.stop n)) es = true := hnx
      simp only [evTimesOK, List.all_cons, Bool.and_eq_true, decide_eq_true_eq,
        evTime] at hok
      obtain ⟨hok1, hoks⟩ := hok
      cases hstate : t.state with
      | Expired => exact absurd hstate hne
      | Stopped =>
        have hstep : stepEv t (.stop n) = t := by
          show (t.stop n 0).1 = _
          unfold ScreenTimer.stop
          rw [if_pos (by rw [hstate]; simp)]
        have htr : trackerOf t = none := by
          unfold trackerOf
          rw [if_neg (by rw [hstate]; simp)]
        rw [hstep] at hxs ⊢
        rw [htr] at hsum ⊢
        rw [ih t hne hrs hxs hoks (by rw [htr]; exact hsum), htr]
        rfl
      | Running =>
        have hs0 : 0 < t.sessionStartTime := hrs hstate
        have hact : t.calculateCurrentSessionSeconds n = n - t.sessionStartTime := by
          unfold ScreenTimer.calculateCurrentSessionSeconds
          rw [if_neg (by rw [hstate]; simp; omega)]
          split
          · omega
          · exact Nat.mod_eq_of_lt (by omega)
        have htr : trackerOf t = some t.sessionStartTime := by
          unfold trackerOf
          rw [if_pos hstate]
        rw [htr] at hsum ⊢
        rw [specSessionSpans] at hsum ⊢
        rw [List.sum_cons] at hsum ⊢
        have hstep : stepEv t (.stop n) =
            { t with
                consumedTodaySeconds :=
                  t.consumedTodaySeconds + (n - t.sessionStartTime)
                sessionStartTime := 0
                state := .Stopped } := by
          show (t.stop n 0).1 = _
          unfold ScreenTimer.stop
          rw [if_neg (by rw [hstate]; simp)]
          simp only [hact]
          rw [if_neg (by simp), Nat.mod_eq_of_lt (by omega)]
        have htr2 : trackerOf
            { t with
                consumedTodaySeconds :=
                  t.consumedTodaySeconds + (n - t.sessionStartTime)
                sessionStartTime := 0
                state := .Stopped } = none := by
          unfold trackerOf
          rw [if_neg (by simp)]
        rw [hstep] at hxs ⊢
        rw [ih _ (by simp) (by simp) hxs hoks (by rw [htr2]; simp; omega)]
        rw [htr2]
        show t.consumedTodaySeconds + (n - t.sessionStartTime)
            + (specSessionSpans none es).sum
          = t.consumedTodaySeconds
            + ((n - t.sessionStartTime) + (specSessionSpans none es).sum)
        omega

/-- C3 counterexample: with allowance 10 s and the trace
[start@1, update@100], the single session starts at wall-clock time 1 and is
ended by the expiry-detecting update tick at time 100, so its actual
wall-clock duration is 99 s; yet the final consumed total is clamped to the
allowance: 10 ≠ 99 = 100 - 1. The conservation equation therefore fails, as
stated, on sequences in which the allowance is exhausted mid-session. -/
theorem conservation_cex :
    (runTrace (ScreenTimer.beginTimer 10 0) [TimerEv.start 1]).state = .Running ∧
    (runTrace (ScreenTimer.beginTimer 10 0) [TimerEv.start 1]).sessionStartTime = 1 ∧
    (runTrace (ScreenTimer.beginTimer 10 0) cexTrace).state = .Expired ∧
    (runTrace (ScreenTimer.beginTimer 10 0) cexTrace).consumedTodaySeconds = 10 ∧
    (runTrace (ScreenTimer.beginTimer 10 0) cexTrace).consumedTodaySeconds
      ≠ 100 - 1 := by
  decide

/-- C3 (amended): for any sequence of start/update/stop(0) calls with a fixed
allowance and no reset, provided the allowance is never exhausted during the
sequence (no start call or Running-state update observes zero remaining),
once all sessions are complete the consumed total equals its initial value
plus the sum of each session's actual wall-clock duration, and remaining
equals allowance minus consumed, clamped at 0 (truncated Nat subtraction). -/
theorem conservation_of_consumed_time (t : ScreenTimer) (es : List TimerEv)
    (h1 : t.state = .Stopped)
    (h3 : noExpiryB t es = true)
    (h4 : evTimesOK es = true)
    (h5 : t.consumedTodaySeconds + (specSessionSpans none es).sum < U32)
    (h6 : (runTrace t es).state ≠ .Running) :
    (runTrace t es).consumedTodaySeconds
      = t.consumedTodaySeconds + (specSessionSpans none es).sum ∧
    ∀ now, (runTrace t es).calculateRemainingSeconds now
      = t.totalAllowanceSeconds - (runTrace t es).consumedTodaySeconds := by
  have htr : trackerOf t = none := by
    unfold trackerOf
    rw [if_neg (by rw [h1]; simp)]
  have hcons := runTrace_consumed es t (by rw [h1]; simp) (by rw [h1]; simp) h3 h4
    (by rw [htr]; exact h5)
  rw [htr] at hcons
  refine ⟨hcons, ?_⟩
  intro now
  have hclt : (runTrace t es).consumedTodaySeconds < U32 := by omega
  rw [remaining_not_running _ now h6 hclt, runTrace_allowance]

/-- C3 witness: the two-session trace (spans 5 s and 10 s) on a fresh 3600 s
timer consumes exactly 0 + 15 s and then has remaining 3600 - 15. -/
theorem conservation_of_consumed_time_witness :
    (runTrace tFresh okTrace).consumedTodaySeconds
      = tFresh.consumedTodaySeconds + (specSessionSpans none okTrace).sum ∧
    (runTrace tFresh okTrace).calculateRemainingSeconds 31
      = tFresh.totalAllowanceSeconds - (runTrace tFresh okTrace).consumedTodaySeconds :=
  let h := conservation_of_consumed_time tFresh okTrace rfl (by decide) (by decide)
    (by decide) (by decide)
  ⟨h.1, h.2 31⟩

end Screenie
